import Mathlib

/-!
# discord_org_hub — OAuth exchange-and-reconciliation pipeline, verified model

Shallow embedding of the backend's OAuth pipeline:
`src/backend/src/main.rs` (callback handler, token exchange, profile fetch,
user reconciliation), `src/backend/src/database/queries.rs` (user and token
queries), and `src/backend/src/handlers/discord_tokens.rs` (token
verification and validation).

Modelling conventions:
* timestamps (`chrono::DateTime<Utc>`) are integers;
* generated primary keys are naturals drawn from per-table counters;
* the two outbound HTTP calls are modelled by passing the provider's
  responses as explicit inputs, so "makes no network call" becomes
  "the result does not depend on those inputs";
* `serde_json` field access `.get(k).and_then(as_str)` is modelled by an
  `Option String` field that is `none` when the key is absent, null, or not
  a string;
* fallible operations return `Except String`, mirroring the source's
  `Result<_, String>` / `Result<_, sqlx::Error>`; driver-generated error
  text that the source merely interpolates is replaced by fixed stand-ins.
-/

namespace DiscordOrgHub

/-! ### Row and input types (shared/src/database/models.rs) -/

/-- Row of the `users` table (`DbUser`). -/
structure DbUser where
  id : Nat
  discord_id : String
  display_name : String
  avatar_url : Option String
  bio : Option String
  created_at : Int
  updated_at : Int
  deriving DecidableEq, Repr

/-- Insert payload for `users` (`CreateUser`). -/
structure CreateUser where
  discord_id : String
  display_name : String
  avatar_url : Option String
  bio : Option String
  deriving DecidableEq, Repr

/-- Update payload for `users` (`UpdateUser`); `none` fields are NULL
parameters, which SQL `COALESCE` lets the stored value survive. -/
structure UpdateUser where
  display_name : Option String
  avatar_url : Option String
  bio : Option String
  deriving DecidableEq, Repr

/-- Row of the `discord_tokens` table (`DbDiscordToken`). -/
structure DbDiscordToken where
  id : Nat
  user_id : Nat
  access_token : String
  refresh_token : Option String
  token_type : String
  scope : Option String
  expires_at : Option Int
  created_at : Int
  updated_at : Int
  deriving DecidableEq, Repr

/-- Insert payload for `discord_tokens` (`CreateDiscordToken`). -/
structure CreateDiscordToken where
  user_id : Nat
  access_token : String
  refresh_token : Option String
  token_type : String
  scope : Option String
  expires_at : Option Int
  deriving DecidableEq, Repr

/-- The database state the pipeline touches: the `users` and
`discord_tokens` tables, plus the id generators for their primary keys. -/
structure DbState where
  users : List DbUser
  tokens : List DbDiscordToken
  next_user_id : Nat
  next_token_id : Nat
  deriving DecidableEq, Repr

/-- SQL `COALESCE(new, old)` on a nullable column. -/
def coalesce {α : Type} (new old : Option α) : Option α :=
  match new with
  | some v => some v
  | none => old

/-! ### User queries (src/backend/src/database/queries.rs) -/

/-- `get_user_by_discord_id` (queries.rs:80):
`SELECT ... FROM users WHERE discord_id = $1`, `fetch_optional`. -/
def get_user_by_discord_id (s : DbState) (discord_id : String) : Option DbUser :=
  s.users.find? (fun u => u.discord_id == discord_id)

/-- Stand-in for the Postgres unique-violation error text interpolated by
`sqlx::Error`'s `Display`. -/
def uniqueViolationMsg : String :=
  "duplicate key value violates unique constraint users_discord_id_key"

/-- `create_user` (queries.rs:43): `INSERT INTO users ... RETURNING ...`.
The `users` table's uniqueness constraint on `discord_id` is modelled from
the spec ("Invariant: exactly one User per external provider identifier";
the migration files are not in the source tree): an insert whose
`discord_id` already exists fails with a unique-violation error, as in
Postgres, and leaves the table unchanged. -/
def create_user (s : DbState) (cu : CreateUser) (now : Int) :
    Except String (DbUser × DbState) :=
  if s.users.any (fun u => u.discord_id == cu.discord_id) then
    Except.error uniqueViolationMsg
  else
    let u : DbUser :=
      { id := s.next_user_id, discord_id := cu.discord_id,
        display_name := cu.display_name, avatar_url := cu.avatar_url,
        bio := cu.bio, created_at := now, updated_at := now }
    Except.ok (u, { s with users := s.users ++ [u],
                           next_user_id := s.next_user_id + 1 })

/-- `update_user` (queries.rs:95):
`UPDATE users SET display_name = COALESCE($2, display_name),
avatar_url = COALESCE($3, avatar_url), bio = COALESCE($4, bio),
updated_at = NOW() WHERE id = $1 RETURNING ...`, `fetch_optional`. -/
def update_user (s : DbState) (user_id : Nat) (uu : UpdateUser) (now : Int) :
    Option DbUser × DbState :=
  match s.users.find? (fun u => u.id == user_id) with
  | none => (none, s)
  | some old =>
    let upd : DbUser :=
      { old with display_name := (uu.display_name).getD old.display_name,
                 avatar_url := coalesce uu.avatar_url old.avatar_url,
                 bio := coalesce uu.bio old.bio,
                 updated_at := now }
    (some upd,
     { s with users := s.users.map (fun u => if u.id == user_id then upd else u) })

/-! ### Token queries (src/backend/src/database/queries.rs) -/

/-- `get_discord_token_by_user_id` (queries.rs:547). -/
def get_discord_token_by_user_id (s : DbState) (user_id : Nat) :
    Option DbDiscordToken :=
  s.tokens.find? (fun t => t.user_id == user_id)

/-- `get_discord_token_by_access_token` (queries.rs:562). -/
def get_discord_token_by_access_token (s : DbState) (access_token : String) :
    Option DbDiscordToken :=
  s.tokens.find? (fun t => t.access_token == access_token)

/-- The row `upsert_discord_token`'s ON CONFLICT branch writes: the
existing row with every grant field and `updated_at` overwritten
(`id` and `created_at` kept). -/
def conflictRow (old : DbDiscordToken) (ct : CreateDiscordToken) (now : Int) :
    DbDiscordToken :=
  { old with access_token := ct.access_token,
             refresh_token := ct.refresh_token,
             token_type := ct.token_type,
             scope := ct.scope,
             expires_at := ct.expires_at,
             updated_at := now }

/-- `upsert_discord_token` (queries.rs:644):
`INSERT INTO discord_tokens ... ON CONFLICT (user_id) DO UPDATE SET
access_token = EXCLUDED.access_token, ..., updated_at = NOW()
RETURNING ...` — one atomic statement; the conflict row keeps its `id` and
`created_at` and takes every grant field from the excluded row. -/
def upsert_discord_token (s : DbState) (ct : CreateDiscordToken) (now : Int) :
    DbDiscordToken × DbState :=
  match s.tokens.find? (fun t => t.user_id == ct.user_id) with
  | some old =>
    let upd : DbDiscordToken := conflictRow old ct now
    (upd,
     { s with tokens := s.tokens.map (fun t => if t.user_id == ct.user_id then upd else t) })
  | none =>
    let t : DbDiscordToken :=
      { id := s.next_token_id, user_id := ct.user_id,
        access_token := ct.access_token, refresh_token := ct.refresh_token,
        token_type := ct.token_type, scope := ct.scope,
        expires_at := ct.expires_at, created_at := now, updated_at := now }
    (t, { s with tokens := s.tokens ++ [t],
                 next_token_id := s.next_token_id + 1 })

/-! ### Profile and reconciliation (src/backend/src/main.rs) -/

/-- The fields of the provider's user-info JSON that
`create_or_update_user_from_discord` reads via `.get(k).and_then(as_str)`;
a field absent, JSON-null, or non-string is `none`. -/
structure UserInfo where
  id : Option String
  username : Option String
  global_name : Option String
  avatar : Option String
  deriving DecidableEq, Repr

/-- main.rs:324: the CDN avatar URL templated from the id and hash. -/
def discordAvatarUrl (discord_id avatar_hash : String) : String :=
  "https://cdn.discordapp.com/avatars/" ++ discord_id ++ "/" ++ avatar_hash ++ ".png"

/-- main.rs:312: `username`, defaulting to "Unknown User". -/
def reconcileUsername (info : UserInfo) : String :=
  (info.username).getD "Unknown User"

/-- main.rs:319: `global_name.unwrap_or(username)`. -/
def reconcileDisplayName (info : UserInfo) : String :=
  (info.global_name).getD (reconcileUsername info)

/-- main.rs:321: the avatar hash, when present, expanded to a CDN URL. -/
def reconcileAvatar (info : UserInfo) (discord_id : String) : Option String :=
  (info.avatar).map (discordAvatarUrl discord_id)

/-- The tail of `create_or_update_user_from_discord` (main.rs:331-363):
everything after the `get_user_by_discord_id` read, taking that read's
(possibly stale, under concurrency) result as a parameter.  On `some`,
update display name and avatar (bio parameter `None`); on `none`, insert a
fresh user (bio `None`) — a create that loses a race surfaces the wrapped
unique-violation error, with no re-read. -/
def reconcile_act (info : UserInfo) (discord_id : String) (looked : Option DbUser)
    (s : DbState) (now : Int) : Except String Nat × DbState :=
  match looked with
  | some existing =>
    let r := update_user s existing.id
      { display_name := some (reconcileDisplayName info),
        avatar_url := reconcileAvatar info discord_id,
        bio := none } now
    match r.1 with
    | some _ => (Except.ok existing.id, r.2)
    | none => (Except.error "User not found after update", r.2)
  | none =>
    match create_user s
      { discord_id := discord_id,
        display_name := reconcileDisplayName info,
        avatar_url := reconcileAvatar info discord_id,
        bio := none } now with
    | Except.ok (u, s') => (Except.ok u.id, s')
    | Except.error e => (Except.error ("Failed to create user: " ++ e), s)

/-- `create_or_update_user_from_discord` (main.rs:303): require the external
id, derive display name and avatar, look up by `discord_id`, then act. -/
def create_or_update_user_from_discord (info : UserInfo) (s : DbState) (now : Int) :
    Except String Nat × DbState :=
  match info.id with
  | none => (Except.error "No Discord ID in user info", s)
  | some discord_id =>
    reconcile_act info discord_id (get_user_by_discord_id s discord_id) s now

/-! ### HTTP pipeline (src/backend/src/main.rs) -/

/-- The token-endpoint JSON fields the exchange reads: `access_token`,
`refresh_token`, `token_type`, `scope` via `as_str`, `expires_in` via
`as_i64`. -/
structure TokenJson where
  access_token : Option String
  refresh_token : Option String
  token_type : Option String
  scope : Option String
  expires_in : Option Int
  deriving DecidableEq, Repr

/-- The token endpoint's response, as observed once transport succeeded:
status code, parsed JSON body (`none` models `response.json()` failing),
and raw text body (`response.text().unwrap_or_default()`). -/
structure TokenResponse where
  status : Nat
  json : Option TokenJson
  text : String
  deriving DecidableEq, Repr

/-- The user-info endpoint's response: status code and parsed JSON body
(`none` models `response.json()` failing). -/
structure UserInfoResponse where
  status : Nat
  json : Option UserInfo
  deriving DecidableEq, Repr

/-- `reqwest::StatusCode::is_success`: 2xx. -/
def isSuccess (status : Nat) : Bool :=
  200 ≤ status && status < 300

/-- `get_discord_user_info` (main.rs:284): GET the user-info endpoint with
the bearer token; on 2xx return the parsed JSON, otherwise an error
carrying the status. -/
def get_discord_user_info (resp : UserInfoResponse) : Except String UserInfo :=
  if isSuccess resp.status then
    match resp.json with
    | some info => Except.ok info
    | none => Except.error "Failed to parse user info"
  else
    Except.error ("Failed to get user info: " ++ toString resp.status)

/-- `exchange_code_for_token_and_save_user` (main.rs:178): POST the code to
the token endpoint; on 2xx parse the grant (`access_token` required,
`token_type` defaulting to "Bearer", `expires_in` converted to an absolute
timestamp at receipt time), fetch the profile, reconcile the user, then
upsert the token row; on non-2xx fail with the status and body text.  The
two provider responses are explicit inputs. -/
def exchange_code_for_token_and_save_user (tokenResp : TokenResponse)
    (userResp : UserInfoResponse) (s : DbState) (now : Int) :
    Except String Nat × DbState :=
  if isSuccess tokenResp.status then
    match tokenResp.json with
    | none => (Except.error "JSON parsing failed", s)
    | some tj =>
      match tj.access_token with
      | none => (Except.error "No access token in response", s)
      | some access_token =>
        match get_discord_user_info userResp with
        | Except.error e => (Except.error e, s)
        | Except.ok user_info =>
          match create_or_update_user_from_discord user_info s now with
          | (Except.error e, s') => (Except.error e, s')
          | (Except.ok user_id, s') =>
            let create_token : CreateDiscordToken :=
              { user_id := user_id,
                access_token := access_token,
                refresh_token := tj.refresh_token,
                token_type := (tj.token_type).getD "Bearer",
                scope := tj.scope,
                expires_at := (tj.expires_in).map (fun seconds => now + seconds) }
            let r := upsert_discord_token s' create_token now
            (Except.ok user_id, r.2)
  else
    (Except.error ("Token request failed: " ++ toString tokenResp.status ++ " - "
      ++ tokenResp.text), s)

/-! ### Callback handler (src/backend/src/main.rs:124) -/

/-- Query parameters of the inbound callback (`DiscordCallbackQuery`). -/
structure DiscordCallbackQuery where
  code : Option String
  error : Option String
  state : Option String
  deriving DecidableEq, Repr

/-- What the callback handler replies with: a redirect. -/
inductive HttpReply where
  | redirect (url : String)
  deriving DecidableEq, Repr

/-- `Config::oauth_error_redirect` (config.rs:170). -/
def oauth_error_redirect (frontend_url error : String) : String :=
  frontend_url ++ "/?error=" ++ error

/-- `Config::oauth_success_redirect` (config.rs:165). -/
def oauth_success_redirect (frontend_url user_id : String) : String :=
  frontend_url ++ "/?auth=success&user_id=" ++ user_id

/-- `handle_discord_callback` (main.rs:124): an inbound `error` parameter
short-circuits to the error redirect; otherwise a present `code` runs the
exchange pipeline and redirects on its outcome; neither parameter redirects
with `missing_code`.  The provider responses are explicit inputs, so a
branch whose result ignores them makes no network call. -/
def handle_discord_callback (frontend_url : String) (params : DiscordCallbackQuery)
    (tokenResp : TokenResponse) (userResp : UserInfoResponse)
    (s : DbState) (now : Int) : HttpReply × DbState :=
  match params.error with
  | some _ => (HttpReply.redirect (oauth_error_redirect frontend_url "oauth_failed"), s)
  | none =>
    match params.code with
    | some _ =>
      match exchange_code_for_token_and_save_user tokenResp userResp s now with
      | (Except.ok user_id, s') =>
        (HttpReply.redirect (oauth_success_redirect frontend_url (toString user_id)), s')
      | (Except.error _, s') =>
        (HttpReply.redirect (oauth_error_redirect frontend_url "token_exchange_failed"), s')
    | none => (HttpReply.redirect (oauth_error_redirect frontend_url "missing_code"), s)

/-! ### Token verification handlers (src/backend/src/handlers/discord_tokens.rs) -/

/-- The JSON envelope `verify_discord_token` answers with: the
`ApiResponse` success flag together with the `verification_result` payload
fields (`user_id` is echoed back and omitted here; `is_expired` is JSON
null when no token row exists). -/
structure VerifyResult where
  success : Bool
  has_token : Bool
  is_expired : Option Bool
  expires_at : Option Int
  deriving DecidableEq, Repr

/-- `verify_discord_token` (discord_tokens.rs:189): look up the token row
by user; with a row, report `has_token = true` and
`is_expired = !(expires_at.map_or(true, |e| e > now))`; with no row, reply
200 with a success envelope, `has_token = false`, `is_expired = null`. -/
def verify_discord_token (s : DbState) (user_id : Nat) (now : Int) :
    Nat × VerifyResult :=
  match get_discord_token_by_user_id s user_id with
  | some token =>
    let is_valid : Bool :=
      match token.expires_at with
      | some expires => now < expires
      | none => true
    (200, { success := true, has_token := true,
            is_expired := some (!is_valid), expires_at := token.expires_at })
  | none =>
    (200, { success := true, has_token := false,
            is_expired := none, expires_at := none })

/-- `validate_access_token` (discord_tokens.rs:266): look up by raw access
token; a row whose `expires_at` is set and `<= now` is reported as absent. -/
def validate_access_token (s : DbState) (access_token : String) (now : Int) :
    Option DbDiscordToken :=
  match get_discord_token_by_access_token s access_token with
  | some token =>
    match token.expires_at with
    | some expires_at => if expires_at ≤ now then none else some token
    | none => some token
  | none => none

/-! ### Generic list lemmas -/

theorem find?_append_left_none {α : Type} (q : α → Bool) (l₁ l₂ : List α)
    (h : l₁.find? q = none) : (l₁ ++ l₂).find? q = l₂.find? q := by
  induction l₁ with
  | nil => simp
  | cons a t ih =>
    cases hq : q a with
    | true => simp [List.find?_cons, hq] at h
    | false =>
      simp only [List.find?_cons, hq] at h
      simpa [List.find?_cons, hq] using ih h

theorem find?_map_of_pred_eq {α : Type} (q : α → Bool) (g : α → α) (l : List α)
    (h : ∀ x ∈ l, q (g x) = q x) : (l.map g).find? q = (l.find? q).map g := by
  induction l with
  | nil => simp
  | cons a t ih =>
    have ha : q (g a) = q a := h a (List.mem_cons_self a t)
    cases hq : q a with
    | true => simp [List.find?_cons, ha, hq]
    | false =>
      simp only [List.map_cons, List.find?_cons, ha, hq]
      exact ih (fun x hx => h x (List.mem_cons_of_mem a hx))

theorem countP_map_of_pred_eq {α : Type} (q : α → Bool) (g : α → α) (l : List α)
    (h : ∀ x ∈ l, q (g x) = q x) : (l.map g).countP q = l.countP q := by
  induction l with
  | nil => simp
  | cons a t ih =>
    have ha : q (g a) = q a := h a (List.mem_cons_self a t)
    have ht := ih (fun x hx => h x (List.mem_cons_of_mem a hx))
    simp [List.countP_cons, ha, ht]

theorem map_map_of_comp_eq {α β : Type} (proj : α → β) (g : α → α) (l : List α)
    (h : ∀ x ∈ l, proj (g x) = proj x) : (l.map g).map proj = l.map proj := by
  induction l with
  | nil => simp
  | cons a t ih =>
    have ha := h a (List.mem_cons_self a t)
    have ht := ih (fun x hx => h x (List.mem_cons_of_mem a hx))
    simp [ha, ht]

theorem find?_key_eq_of_mem {α : Type} (key : α → Nat) (l : List α) (u : α)
    (hnd : (l.map key).Nodup) (hu : u ∈ l) :
    l.find? (fun r => key r == key u) = some u := by
  induction l with
  | nil => cases hu
  | cons a t ih =>
    rw [List.map_cons, List.nodup_cons] at hnd
    rcases List.mem_cons.mp hu with h | h
    · subst h
      simp [List.find?_cons]
    · have hk : (key a == key u) = false := by
        rw [beq_eq_false_iff_ne]
        intro he
        exact hnd.1 (he ▸ List.mem_map_of_mem key h)
      simpa [List.find?_cons, hk] using ih hnd.2 h

theorem eq_of_key_eq_of_nodup {α : Type} (key : α → Nat) (l : List α)
    (hnd : (l.map key).Nodup) (x y : α) (hx : x ∈ l) (hy : y ∈ l)
    (h : key x = key y) : x = y := by
  induction l with
  | nil => cases hx
  | cons a t ih =>
    rw [List.map_cons, List.nodup_cons] at hnd
    rcases List.mem_cons.mp hx with hx' | hx' <;> rcases List.mem_cons.mp hy with hy' | hy'
    · rw [hx', hy']
    · exact absurd (h ▸ List.mem_map_of_mem key hy') (hx' ▸ hnd.1)
    · exact absurd (h ▸ List.mem_map_of_mem key hx') (hy' ▸ hnd.1)
    · exact ih hnd.2 hx' hy'

/-! ### Reconciliation branch characterizations -/

/-- Invariants Postgres maintains on the `users` table: primary keys are
distinct, and every existing key is below the id generator's next value. -/
def UsersWf (s : DbState) : Prop :=
  (s.users.map (fun u => u.id)).Nodup ∧ ∀ r ∈ s.users, r.id < s.next_user_id

/-- The user row the create branch of reconciliation inserts. -/
def newRow (info : UserInfo) (discord_id : String) (id : Nat) (now : Int) : DbUser :=
  { id := id, discord_id := discord_id,
    display_name := reconcileDisplayName info,
    avatar_url := reconcileAvatar info discord_id,
    bio := none, created_at := now, updated_at := now }

/-- The updated form of row `u` the update branch of reconciliation writes:
display name replaced, avatar coalesced with the stored one, bio kept. -/
def updRow (info : UserInfo) (discord_id : String) (u : DbUser) (now : Int) : DbUser :=
  { u with display_name := reconcileDisplayName info,
           avatar_url := coalesce (reconcileAvatar info discord_id) u.avatar_url,
           updated_at := now }

theorem reconcile_create_spec (info : UserInfo) (did : String) (s : DbState) (now : Int)
    (hid : info.id = some did)
    (hfresh : get_user_by_discord_id s did = none) :
    create_or_update_user_from_discord info s now =
      (Except.ok s.next_user_id,
       { s with users := s.users ++ [newRow info did s.next_user_id now],
                next_user_id := s.next_user_id + 1 }) := by
  have hany : s.users.any (fun r => r.discord_id == did) = false := by
    rw [List.any_eq_false]
    intro x hx
    exact List.find?_eq_none.mp hfresh x hx
  simp only [create_or_update_user_from_discord, hid]
  simp only [reconcile_act, hfresh]
  simp only [create_user, hany]
  simp [newRow]

theorem reconcile_update_spec (info : UserInfo) (did : String) (u : DbUser)
    (s : DbState) (now : Int)
    (hnd : (s.users.map (fun r => r.id)).Nodup)
    (hid : info.id = some did)
    (hfound : get_user_by_discord_id s did = some u) :
    create_or_update_user_from_discord info s now =
      (Except.ok u.id,
       { s with users := s.users.map (fun r => if r.id == u.id then updRow info did u now else r) }) := by
  have hu : u ∈ s.users := List.mem_of_find?_eq_some hfound
  have hfind : s.users.find? (fun r => r.id == u.id) = some u :=
    find?_key_eq_of_mem (fun r => r.id) s.users u hnd hu
  simp only [create_or_update_user_from_discord, hid]
  simp only [reconcile_act, hfound]
  simp only [update_user, hfind]
  simp [updRow, coalesce]

theorem reconcile_act_stale_create (info : UserInfo) (did : String)
    (s : DbState) (now : Int)
    (hbusy : get_user_by_discord_id s did ≠ none) :
    reconcile_act info did none s now =
      (Except.error ("Failed to create user: " ++ uniqueViolationMsg), s) := by
  have hany : s.users.any (fun r => r.discord_id == did) = true := by
    rw [List.any_eq_true]
    rcases Option.ne_none_iff_exists.mp hbusy with ⟨r, hr⟩
    have hr' : s.users.find? (fun x => x.discord_id == did) = some r := hr.symm
    have hp : (fun x : DbUser => x.discord_id == did) r = true :=
      @List.find?_some DbUser (fun x => x.discord_id == did) r s.users hr'
    exact ⟨r, List.mem_of_find?_eq_some hr', hp⟩
  simp only [reconcile_act, create_user, hany]
  simp

/-! ### Concrete fixtures for witnesses and counterexamples -/

/-- Empty database. -/
def emptyDb : DbState :=
  { users := [], tokens := [], next_user_id := 0, next_token_id := 0 }

/-- A plain provider profile. -/
def wInfo : UserInfo :=
  { id := some "999", username := some "alice", global_name := none, avatar := none }

/-- A 2xx user-info response carrying `wInfo`. -/
def wUserResp : UserInfoResponse := { status := 200, json := some wInfo }

/-- A 400 token-endpoint response. -/
def wBadTokenResp : TokenResponse :=
  { status := 400, json := none, text := "invalid_grant" }

/-- A stored token for user 7 expiring at time 100. -/
def wToken : DbDiscordToken :=
  { id := 0, user_id := 7, access_token := "tok1", refresh_token := none,
    token_type := "Bearer", scope := none, expires_at := some 100,
    created_at := 0, updated_at := 0 }

/-- A database holding exactly `wToken`. -/
def wTokenDb : DbState :=
  { users := [], tokens := [wToken], next_user_id := 0, next_token_id := 1 }

/-! ### C4 — find_valid / expiry evaluation -/

/-- C4: for every stored token and every current time, the
lookup-by-access-token-with-expiry-evaluation (`validate_access_token`)
returns no result exactly when the token's expiry timestamp exists and is
not in the future; it returns the stored token when the expiry is in the
future or absent; and it returns no result when no token is stored, so a
present-but-expired token is indistinguishable from an absent one at this
interface. -/
theorem c4_find_valid_expiry (s : DbState) (a : String) (now : Int)
    (t : DbDiscordToken) (e : Int) :
    (get_discord_token_by_access_token s a = some t → t.expires_at = some e →
      e ≤ now → validate_access_token s a now = none) ∧
    (get_discord_token_by_access_token s a = some t → t.expires_at = some e →
      now < e → validate_access_token s a now = some t) ∧
    (get_discord_token_by_access_token s a = some t → t.expires_at = none →
      validate_access_token s a now = some t) ∧
    (get_discord_token_by_access_token s a = none →
      validate_access_token s a now = none) := by
  refine ⟨?_, ?_, ?_, ?_⟩
  · intro h he hle
    simp [validate_access_token, h, he, hle]
  · intro h he hlt
    have hn : ¬ e ≤ now := by omega
    simp [validate_access_token, h, he, hn]
  · intro h he
    simp [validate_access_token, h, he]
  · intro h
    simp [validate_access_token, h]

/-- Witness for C4: the token expiring at 100 is reported absent at time
100, present at time 99, present forever with no expiry, and an unknown
access token is absent. -/
theorem c4_find_valid_expiry_witness :
    validate_access_token wTokenDb "tok1" 100 = none ∧
    validate_access_token wTokenDb "tok1" 99 = some wToken ∧
    validate_access_token wTokenDb "missing" 99 = none :=
  ⟨(c4_find_valid_expiry wTokenDb "tok1" 100 wToken 100).1 (by decide) (by decide)
      (by decide),
   (c4_find_valid_expiry wTokenDb "tok1" 99 wToken 100).2.1 (by decide) (by decide)
      (by decide),
   (c4_find_valid_expiry wTokenDb "missing" 99 wToken 100).2.2.2 (by decide)⟩

/-! ### C7 — non-2xx token exchange -/

/-- C7: when the token endpoint answers with a non-2xx status,
`complete_login` (`exchange_code_for_token_and_save_user`) fails with
`Token request failed: <status> - <body>` — the ExchangeFailed outcome
carrying the provider status code and response body — and the database
state is returned unchanged: no user row or token row is created or
modified by that login attempt. -/
theorem c7_exchange_failed_non2xx (tokenResp : TokenResponse)
    (userResp : UserInfoResponse) (s : DbState) (now : Int)
    (h : isSuccess tokenResp.status = false) :
    exchange_code_for_token_and_save_user tokenResp userResp s now =
      (Except.error ("Token request failed: " ++ toString tokenResp.status
        ++ " - " ++ tokenResp.text), s) := by
  simp [exchange_code_for_token_and_save_user, h]

/-- Witness for C7 at HTTP 400 against the empty database. -/
theorem c7_exchange_failed_non2xx_witness :
    isSuccess 400 = false ∧
    exchange_code_for_token_and_save_user wBadTokenResp wUserResp emptyDb 0 =
      (Except.error ("Token request failed: " ++ toString (400 : Nat)
        ++ " - " ++ "invalid_grant"), emptyDb) :=
  ⟨by decide,
   c7_exchange_failed_non2xx wBadTokenResp wUserResp emptyDb 0 (by decide)⟩

/-! ### C9 — callback short-circuits -/

/-- C9: an inbound `error` parameter makes the callback handler
short-circuit to the denied redirect (`oauth_failed`) with the state
unchanged and a result independent of the provider's responses and the
clock — no network call, no storage write; with neither `code` nor `error`
the outcome is the `missing_code` redirect (InvalidCallback), likewise with
unchanged state and no dependence on the responses. -/
theorem c9_callback_short_circuit (furl : String)
    (params : DiscordCallbackQuery) (tr tr' : TokenResponse)
    (ur ur' : UserInfoResponse) (s : DbState) (now now' : Int) (e : String) :
    (params.error = some e →
      handle_discord_callback furl params tr ur s now =
        (HttpReply.redirect (oauth_error_redirect furl "oauth_failed"), s) ∧
      handle_discord_callback furl params tr ur s now =
        handle_discord_callback furl params tr' ur' s now') ∧
    (params.error = none → params.code = none →
      handle_discord_callback furl params tr ur s now =
        (HttpReply.redirect (oauth_error_redirect furl "missing_code"), s) ∧
      handle_discord_callback furl params tr ur s now =
        handle_discord_callback furl params tr' ur' s now') := by
  constructor
  · intro he
    constructor <;> simp [handle_discord_callback, he]
  · intro he hc
    constructor <;> simp [handle_discord_callback, he, hc]

/-- Callback query carrying `error=access_denied` and no code. -/
def wDeniedParams : DiscordCallbackQuery :=
  { code := none, error := some "access_denied", state := none }

/-- Callback query with neither code nor error. -/
def wEmptyParams : DiscordCallbackQuery :=
  { code := none, error := none, state := none }

/-- A 2xx token-endpoint response with a full grant. -/
def wOkTokenResp : TokenResponse :=
  { status := 200,
    json := some { access_token := some "tok1", refresh_token := some "ref1",
                   token_type := none, scope := some "identify",
                   expires_in := some 3600 },
    text := "" }

/-- Witness for C9: the denied and empty callbacks, against both a failing
and a succeeding provider, at two different times. -/
theorem c9_callback_short_circuit_witness :
    (handle_discord_callback "http://f" wDeniedParams wBadTokenResp wUserResp emptyDb 0 =
      (HttpReply.redirect (oauth_error_redirect "http://f" "oauth_failed"), emptyDb) ∧
     handle_discord_callback "http://f" wDeniedParams wBadTokenResp wUserResp emptyDb 0 =
      handle_discord_callback "http://f" wDeniedParams wOkTokenResp wUserResp emptyDb 99) ∧
    (handle_discord_callback "http://f" wEmptyParams wBadTokenResp wUserResp emptyDb 0 =
      (HttpReply.redirect (oauth_error_redirect "http://f" "missing_code"), emptyDb) ∧
     handle_discord_callback "http://f" wEmptyParams wBadTokenResp wUserResp emptyDb 0 =
      handle_discord_callback "http://f" wEmptyParams wOkTokenResp wUserResp emptyDb 99) :=
  ⟨(c9_callback_short_circuit "http://f" wDeniedParams wBadTokenResp wOkTokenResp
      wUserResp wUserResp emptyDb 0 99 "access_denied").1 rfl,
   (c9_callback_short_circuit "http://f" wEmptyParams wBadTokenResp wOkTokenResp
      wUserResp wUserResp emptyDb 0 99 "access_denied").2 rfl rfl⟩

/-! ### C10 — verify-by-user -/

/-- C10: `verify_discord_token` never reports an error merely because no
token row exists: with no row it replies 200 with a success envelope,
`has_token = false` and `is_expired = null`; with a row it replies 200 with
`has_token = true` and `is_expired = some true` exactly when the stored
expiry is set and not after the current time (`is_expired = some false`
when the expiry is absent or still in the future). -/
theorem c10_verify_no_token_success (s : DbState) (uid : Nat) (now e : Int)
    (t : DbDiscordToken) :
    (get_discord_token_by_user_id s uid = none →
      verify_discord_token s uid now =
        (200, { success := true, has_token := false,
                is_expired := none, expires_at := none })) ∧
    (get_discord_token_by_user_id s uid = some t → t.expires_at = none →
      verify_discord_token s uid now =
        (200, { success := true, has_token := true,
                is_expired := some false, expires_at := none })) ∧
    (get_discord_token_by_user_id s uid = some t → t.expires_at = some e →
      e ≤ now →
      verify_discord_token s uid now =
        (200, { success := true, has_token := true,
                is_expired := some true, expires_at := some e })) ∧
    (get_discord_token_by_user_id s uid = some t → t.expires_at = some e →
      now < e →
      verify_discord_token s uid now =
        (200, { success := true, has_token := true,
                is_expired := some false, expires_at := some e })) := by
  refine ⟨?_, ?_, ?_, ?_⟩
  · intro h
    simp [verify_discord_token, h]
  · intro h he
    simp [verify_discord_token, h, he]
  · intro h he hle
    have hn : ¬ now < e := by omega
    simp [verify_discord_token, h, he, hn]
  · intro h he hlt
    simp [verify_discord_token, h, he, hlt]

/-- Witness for C10: user 8 has no token yet gets a success envelope; user
7's token is expired at time 100 and valid at time 99. -/
theorem c10_verify_no_token_success_witness :
    verify_discord_token wTokenDb 8 0 =
      (200, { success := true, has_token := false,
              is_expired := none, expires_at := none }) ∧
    verify_discord_token wTokenDb 7 100 =
      (200, { success := true, has_token := true,
              is_expired := some true, expires_at := some 100 }) ∧
    verify_discord_token wTokenDb 7 99 =
      (200, { success := true, has_token := true,
              is_expired := some false, expires_at := some 100 }) :=
  ⟨(c10_verify_no_token_success wTokenDb 8 0 0 wToken).1 (by decide),
   (c10_verify_no_token_success wTokenDb 7 100 100 wToken).2.2.1 (by decide)
      (by decide) (by decide),
   (c10_verify_no_token_success wTokenDb 7 99 100 wToken).2.2.2 (by decide)
      (by decide) (by decide)⟩

/-! ### C3 — single-token invariant under upsert -/

/-- Replacing, in a list holding exactly one matching element, every
matching element by a matching `b` leaves `[b]` as the matching sublist. -/
theorem filter_replace_singleton {α : Type} (q : α → Bool) (b : α) :
    ∀ l : List α, q b = true → (l.filter q).length = 1 →
      (l.map (fun x => if q x then b else x)).filter q = [b]
  | [], _, hlen => by simp at hlen
  | a :: t, hb, hlen => by
    cases hq : q a with
    | true =>
      have hcons : (a :: t).filter q = a :: t.filter q := by
        simp [List.filter_cons, hq]
      rw [hcons, List.length_cons] at hlen
      have hnil : t.filter q = [] := List.length_eq_zero.mp (by omega)
      have hall : ∀ x ∈ t, q x = false := by
        intro x hx
        have := List.filter_eq_nil_iff.mp hnil x hx
        simpa using this
      have hmap : (t.map (fun x => if q x then b else x)).filter q = [] := by
        rw [List.filter_eq_nil_iff]
        intro y hy
        rcases List.mem_map.mp hy with ⟨x, hx, hxy⟩
        have hqx := hall x hx
        rw [← hxy]
        simp [hqx]
      simp [List.filter_cons, hq, hb, hmap]
    | false =>
      have hlen' : (t.filter q).length = 1 := by
        simpa [List.filter_cons, hq] using hlen
      have := filter_replace_singleton q b t hb hlen'
      simpa [List.filter_cons, hq] using this

/-- The token-row fields the upsert overwrites from the grant. -/
def grantFields (t : DbDiscordToken) :
    String × Option String × String × Option String × Option Int :=
  (t.access_token, t.refresh_token, t.token_type, t.scope, t.expires_at)

/-- The corresponding fields of a `CreateDiscordToken` payload. -/
def grantOf (c : CreateDiscordToken) :
    String × Option String × String × Option String × Option Int :=
  (c.access_token, c.refresh_token, c.token_type, c.scope, c.expires_at)

/-- One upsert against a table with at most one row for the grant's user
leaves exactly one row for that user, holding the grant's fields. -/
theorem upsert_filter_step (s : DbState) (c : CreateDiscordToken) (now : Int)
    (hinv : (s.tokens.filter (fun t => t.user_id == c.user_id)).length ≤ 1) :
    ((upsert_discord_token s c now).2.tokens.filter
        (fun t => t.user_id == c.user_id)).map grantFields = [grantOf c] := by
  cases hfind : s.tokens.find? (fun t => t.user_id == c.user_id) with
  | none =>
    have hnil : s.tokens.filter (fun t => t.user_id == c.user_id) = [] := by
      rw [List.filter_eq_nil_iff]
      exact List.find?_eq_none.mp hfind
    simp only [upsert_discord_token, hfind]
    simp [List.filter_append, hnil, grantFields, grantOf]
  | some old =>
    have hmem : old ∈ s.tokens.filter (fun t => t.user_id == c.user_id) :=
      List.mem_filter.mpr ⟨List.mem_of_find?_eq_some hfind,
        @List.find?_some DbDiscordToken (fun t => t.user_id == c.user_id) old s.tokens hfind⟩
    have hlen : (s.tokens.filter (fun t => t.user_id == c.user_id)).length = 1 := by
      have : 0 < (s.tokens.filter (fun t => t.user_id == c.user_id)).length :=
        List.length_pos.mpr (List.ne_nil_of_mem hmem)
      omega
    have hbq : ((conflictRow old c now).user_id == c.user_id) = true :=
      @List.find?_some DbDiscordToken (fun t => t.user_id == c.user_id) old s.tokens hfind
    have hrepl := filter_replace_singleton
      (fun t : DbDiscordToken => t.user_id == c.user_id)
      (conflictRow old c now) s.tokens hbq hlen
    simp only [upsert_discord_token, hfind]
    rw [hrepl]
    simp [conflictRow, grantFields, grantOf]

/-- The database state after a sequence of token upserts. -/
def upsert_seq (s : DbState) (cs : List CreateDiscordToken) (now : Int) : DbState :=
  cs.foldl (fun st c => (upsert_discord_token st c now).2) s

/-- Induction workhorse for C3, structural on the call sequence. -/
theorem upsert_seq_last (u : Nat) (now : Int) :
    ∀ (cs : List CreateDiscordToken) (s : DbState) (hne : cs ≠ []),
      (∀ c ∈ cs, c.user_id = u) →
      (s.tokens.filter (fun t => t.user_id == u)).length ≤ 1 →
      ((upsert_seq s cs now).tokens.filter (fun t => t.user_id == u)).map grantFields
        = [grantOf (cs.getLast hne)]
  | [], _, hne, _, _ => absurd rfl hne
  | [c], s, _, hu, hinv => by
    have hc : c.user_id = u := hu c (List.mem_cons_self c [])
    have hstep := upsert_filter_step s c now (by rw [hc]; exact hinv)
    rw [hc] at hstep
    simpa [upsert_seq] using hstep
  | c :: d :: ds, s, _, hu, hinv => by
    have hc : c.user_id = u := hu c (List.mem_cons_self c (d :: ds))
    have hstep := upsert_filter_step s c now (by rw [hc]; exact hinv)
    rw [hc] at hstep
    have hne' : d :: ds ≠ [] := by simp
    have hseq : upsert_seq s (c :: d :: ds) now =
        upsert_seq (upsert_discord_token s c now).2 (d :: ds) now := rfl
    have hlast : (c :: d :: ds).getLast (by simp) = (d :: ds).getLast hne' :=
      List.getLast_cons hne'
    rw [hseq, hlast]
    refine upsert_seq_last u now (d :: ds) (upsert_discord_token s c now).2 hne'
      (fun x hx => hu x (List.mem_cons_of_mem c hx)) ?_
    have hlen1 : (((upsert_discord_token s c now).2.tokens.filter
        (fun t => t.user_id == u)).map grantFields).length = 1 := by
      rw [hstep]
      rfl
    rw [List.length_map] at hlen1
    omega

/-- C3: for any user, after N ≥ 1 upserts (each a single atomic
insert-or-on-conflict-update state transition, as in the SQL statement),
starting from a table satisfying the at-most-one-row-per-user constraint,
exactly one token row exists for that user and its access token, refresh
token, token type, scope, and expiry are the values supplied by the Nth
call. -/
theorem c3_single_token_invariant (s : DbState) (u : Nat)
    (cs : List CreateDiscordToken) (now : Int) (hne : cs ≠ [])
    (hu : ∀ c ∈ cs, c.user_id = u)
    (hinv : (s.tokens.filter (fun t => t.user_id == u)).length ≤ 1) :
    ((upsert_seq s cs now).tokens.filter (fun t => t.user_id == u)).map grantFields
      = [grantOf (cs.getLast hne)] :=
  upsert_seq_last u now cs s hne hu hinv

/-- Two successive grants for user 7. -/
def wGrant1 : CreateDiscordToken :=
  { user_id := 7, access_token := "tok1", refresh_token := none,
    token_type := "Bearer", scope := none, expires_at := some 100 }

/-- A replacement grant for user 7 with every field changed. -/
def wGrant2 : CreateDiscordToken :=
  { user_id := 7, access_token := "tok2", refresh_token := some "ref2",
    token_type := "Bearer", scope := some "identify", expires_at := some 200 }

/-- Witness for C3: two upserts for user 7 against the empty table leave
exactly one row, holding the second grant's values. -/
theorem c3_single_token_invariant_witness :
    ((upsert_seq emptyDb [wGrant1, wGrant2] 0).tokens.filter
        (fun t => t.user_id == 7)).map grantFields = [grantOf wGrant2] :=
  c3_single_token_invariant emptyDb 7 [wGrant1, wGrant2] 0 (by decide)
    (by intro c hc
        rcases List.mem_cons.mp hc with h | h
        · rw [h]; rfl
        · rcases List.mem_cons.mp h with h' | h'
          · rw [h']; rfl
          · cases h')
    (by decide)

/-! ### C2 — update branch of reconciliation -/

/-- A stored user for external id "999" with an avatar URL and a bio. -/
def cUserAv : DbUser :=
  { id := 0, discord_id := "999", display_name := "alice",
    avatar_url := some "https://cdn.discordapp.com/avatars/999/old.png",
    bio := some "my bio", created_at := 0, updated_at := 0 }

/-- A database holding exactly `cUserAv`. -/
def cDbAv : DbState :=
  { users := [cUserAv], tokens := [], next_user_id := 1, next_token_id := 0 }

/-- A fresh profile for the same external id: changed username, no avatar. -/
def cInfoNoAvatar : UserInfo :=
  { id := some "999", username := some "alice2", global_name := none,
    avatar := none }

/-- C2 counterexample: the fresh profile for external id "999" carries no
avatar (its derived avatar URL is `none`), yet reconciling it against the
stored user leaves the stored avatar URL in place — the avatar URL is not
updated "unconditionally from the fresh profile, including when the fresh
profile carries no avatar". -/
theorem c2_counterexample :
    reconcileAvatar cInfoNoAvatar "999" = none ∧
    create_or_update_user_from_discord cInfoNoAvatar cDbAv 5 =
      (Except.ok 0,
       { users := [{ cUserAv with display_name := "alice2", updated_at := 5 }],
         tokens := [], next_user_id := 1, next_token_id := 0 }) := by
  constructor
  · rfl
  · rfl

/-- C2 (amended): for every profile whose external identifier matches an
existing user (primary keys distinct), reconcile returns the existing
identifier and rewrites that user's row with: the display name taken
unconditionally from the fresh profile; the avatar URL taken from the
fresh profile only when it carries an avatar hash, the stored avatar URL
being kept (SQL COALESCE) when it does not; and the bio untouched. -/
theorem c2_update_fields (info : UserInfo) (did ah : String) (u : DbUser)
    (s : DbState) (now : Int)
    (hnd : (s.users.map (fun r => r.id)).Nodup)
    (hid : info.id = some did)
    (hfound : get_user_by_discord_id s did = some u) :
    create_or_update_user_from_discord info s now =
      (Except.ok u.id,
       { s with users := s.users.map (fun r => if r.id == u.id then updRow info did u now else r) }) ∧
    (updRow info did u now).display_name = reconcileDisplayName info ∧
    (info.avatar = some ah →
      (updRow info did u now).avatar_url = some (discordAvatarUrl did ah)) ∧
    (info.avatar = none → (updRow info did u now).avatar_url = u.avatar_url) ∧
    (updRow info did u now).bio = u.bio := by
  refine ⟨reconcile_update_spec info did u s now hnd hid hfound, rfl, ?_, ?_, rfl⟩
  · intro hav
    simp [updRow, coalesce, reconcileAvatar, hav]
  · intro hav
    simp [updRow, coalesce, reconcileAvatar, hav]

/-- A fresh profile for external id "999" carrying a new avatar hash. -/
def cInfoNewAvatar : UserInfo :=
  { id := some "999", username := some "alice2", global_name := none,
    avatar := some "newhash" }

/-- Witness for C2 (amended) at the stored user `cUserAv`. -/
theorem c2_update_fields_witness :
    create_or_update_user_from_discord cInfoNewAvatar cDbAv 5 =
      (Except.ok cUserAv.id,
       { cDbAv with users := cDbAv.users.map (fun r => if r.id == cUserAv.id then updRow cInfoNewAvatar "999" cUserAv 5 else r) }) ∧
    (updRow cInfoNewAvatar "999" cUserAv 5).display_name =
      reconcileDisplayName cInfoNewAvatar ∧
    (cInfoNewAvatar.avatar = some "newhash" →
      (updRow cInfoNewAvatar "999" cUserAv 5).avatar_url =
        some (discordAvatarUrl "999" "newhash")) ∧
    (cInfoNewAvatar.avatar = none →
      (updRow cInfoNewAvatar "999" cUserAv 5).avatar_url = cUserAv.avatar_url) ∧
    (updRow cInfoNewAvatar "999" cUserAv 5).bio = cUserAv.bio :=
  c2_update_fields cInfoNewAvatar "999" "newhash" cUserAv cDbAv 5 (by decide)
    rfl rfl

/-! ### C5 — required profile fields -/

/-- Profile with an external id but no username. -/
def cInfoNoUsername : UserInfo :=
  { id := some "999", username := none, global_name := none, avatar := none }

/-- C5 counterexample: a profile response missing the username does not
make the pipeline fail — reconciliation against the empty database
succeeds and creates the user with the substitute display name
"Unknown User". -/
theorem c5_counterexample :
    create_or_update_user_from_discord cInfoNoUsername emptyDb 0 =
      (Except.ok 0,
       { users := [{ id := 0, discord_id := "999",
                     display_name := "Unknown User", avatar_url := none,
                     bio := none, created_at := 0, updated_at := 0 }],
         tokens := [], next_user_id := 1, next_token_id := 0 }) := by
  rfl

/-- C5 (amended): the pipeline requires an external identifier in the
profile response — without one it fails with `No Discord ID in user info`
and the state is unchanged — but a missing username does not cause
failure: reconciliation proceeds, substituting the display name
"Unknown User" when the display-name override is also absent. -/
theorem c5_missing_fields (info : UserInfo) (did : String) (s : DbState)
    (now : Int) :
    (info.id = none →
      create_or_update_user_from_discord info s now =
        (Except.error "No Discord ID in user info", s)) ∧
    (info.id = some did → info.username = none → info.global_name = none →
      get_user_by_discord_id s did = none →
      create_or_update_user_from_discord info s now =
        (Except.ok s.next_user_id,
         { s with users := s.users ++ [newRow info did s.next_user_id now],
                  next_user_id := s.next_user_id + 1 }) ∧
      (newRow info did s.next_user_id now).display_name = "Unknown User") := by
  constructor
  · intro h
    simp [create_or_update_user_from_discord, h]
  · intro hid hun hgn hfresh
    refine ⟨reconcile_create_spec info did s now hid hfresh, ?_⟩
    simp [newRow, reconcileDisplayName, reconcileUsername, hun, hgn]

/-- Profile with no external id. -/
def cInfoNoId : UserInfo :=
  { id := none, username := some "alice", global_name := none, avatar := none }

/-- Witness for C5 (amended): missing id fails; missing username creates
"Unknown User". -/
theorem c5_missing_fields_witness :
    create_or_update_user_from_discord cInfoNoId emptyDb 0 =
      (Except.error "No Discord ID in user info", emptyDb) ∧
    (create_or_update_user_from_discord cInfoNoUsername emptyDb 0 =
      (Except.ok emptyDb.next_user_id,
       { emptyDb with users := emptyDb.users ++ [newRow cInfoNoUsername "999" emptyDb.next_user_id 0],
                      next_user_id := emptyDb.next_user_id + 1 }) ∧
     (newRow cInfoNoUsername "999" emptyDb.next_user_id 0).display_name =
       "Unknown User") :=
  ⟨(c5_missing_fields cInfoNoId "999" emptyDb 0).1 rfl,
   (c5_missing_fields cInfoNoUsername "999" emptyDb 0).2 rfl rfl rfl (by decide)⟩

/-! ### C6 — display-name override selection -/

/-- Profile whose display-name override is present but empty. -/
def cInfoEmptyGlobal : UserInfo :=
  { id := some "999", username := some "alice", global_name := some "",
    avatar := none }

/-- C6 counterexample: with the override present but empty, the display
name used for reconciliation is the empty string, not the username
"alice" — a present-but-empty override does become the display name. -/
theorem c6_counterexample :
    cInfoEmptyGlobal.global_name = some "" ∧
    cInfoEmptyGlobal.username = some "alice" ∧
    reconcileDisplayName cInfoEmptyGlobal = "" ∧
    create_or_update_user_from_discord cInfoEmptyGlobal emptyDb 0 =
      (Except.ok 0,
       { users := [{ id := 0, discord_id := "999", display_name := "",
                     avatar_url := none, bio := none, created_at := 0,
                     updated_at := 0 }],
         tokens := [], next_user_id := 1, next_token_id := 0 }) := by
  refine ⟨rfl, rfl, rfl, rfl⟩

/-- C6 (amended): the display name used for reconciliation is the
display-name override (`global_name`) whenever that field is present —
including present-but-empty — and the username otherwise; the create
branch stores exactly this selection. -/
theorem c6_display_name_selection (info : UserInfo) (did g uname : String)
    (s : DbState) (now : Int) :
    (info.global_name = some g → reconcileDisplayName info = g) ∧
    (info.global_name = none → info.username = some uname →
      reconcileDisplayName info = uname) ∧
    (info.id = some did → get_user_by_discord_id s did = none →
      create_or_update_user_from_discord info s now =
        (Except.ok s.next_user_id,
         { s with users := s.users ++ [newRow info did s.next_user_id now],
                  next_user_id := s.next_user_id + 1 }) ∧
      (newRow info did s.next_user_id now).display_name =
        reconcileDisplayName info) := by
  refine ⟨?_, ?_, ?_⟩
  · intro hg
    simp [reconcileDisplayName, hg]
  · intro hg hu
    simp [reconcileDisplayName, reconcileUsername, hg, hu]
  · intro hid hfresh
    exact ⟨reconcile_create_spec info did s now hid hfresh, rfl⟩

/-- Witness for C6 (amended): empty override selected; username fallback;
create branch stores the selection. -/
theorem c6_display_name_selection_witness :
    reconcileDisplayName cInfoEmptyGlobal = "" ∧
    reconcileDisplayName wInfo = "alice" ∧
    (create_or_update_user_from_discord wInfo emptyDb 0 =
      (Except.ok emptyDb.next_user_id,
       { emptyDb with users := emptyDb.users ++ [newRow wInfo "999" emptyDb.next_user_id 0],
                      next_user_id := emptyDb.next_user_id + 1 }) ∧
     (newRow wInfo "999" emptyDb.next_user_id 0).display_name =
       reconcileDisplayName wInfo) :=
  ⟨(c6_display_name_selection cInfoEmptyGlobal "999" "" "alice" emptyDb 0).1 rfl,
   (c6_display_name_selection wInfo "999" "" "alice" emptyDb 0).2.1 rfl rfl,
   (c6_display_name_selection wInfo "999" "" "alice" emptyDb 0).2.2 rfl (by decide)⟩

/-! ### C1 — create race on a previously-unseen external identifier -/

/-- The database after reconciling `wInfo` against the empty database. -/
def cDbAfterA : DbState :=
  { users := [{ id := 0, discord_id := "999", display_name := "alice",
                avatar_url := none, bio := none, created_at := 0,
                updated_at := 0 }],
    tokens := [], next_user_id := 1, next_token_id := 0 }

/-- C1 counterexample: both concurrent reconciliations of the
previously-unseen external id "999" read before either writes (both see
no user); B's create commits first; A's create then hits the uniqueness
constraint — and A surfaces a `Failed to create user` error instead of
re-reading and returning the now-existing identifier. -/
theorem c1_counterexample :
    get_user_by_discord_id emptyDb "999" = none ∧
    create_or_update_user_from_discord wInfo emptyDb 0 =
      (Except.ok 0, cDbAfterA) ∧
    reconcile_act wInfo "999" none cDbAfterA 0 =
      (Except.error ("Failed to create user: " ++ uniqueViolationMsg),
       cDbAfterA) := by
  refine ⟨rfl, rfl, rfl⟩

/-- C1 (amended): when, during reconciliation of a previously-unseen
external identifier, the creation of the new user record hits the
uniqueness constraint (a concurrent request created the user first),
reconcile surfaces a `Failed to create user` error to the caller — it
does not re-read.  Two concurrent reconcile calls for the same
previously-unseen external identifier still never both succeed with
different user identifiers: whichever act runs second either fails with
that error (when its lookup predates the first write) or returns the
first call's identifier (when its lookup saw the first write). -/
theorem c1_create_race (infoA infoB : UserInfo) (did : String)
    (s0 s1 : DbState) (now1 now2 : Int) (ua ub : Nat) (lb : Option DbUser)
    (hidA : infoA.id = some did) (hidB : infoB.id = some did)
    (hfresh : get_user_by_discord_id s0 did = none)
    (hrunA : create_or_update_user_from_discord infoA s0 now1 =
      (Except.ok ua, s1)) :
    reconcile_act infoB did none s1 now2 =
      (Except.error ("Failed to create user: " ++ uniqueViolationMsg), s1) ∧
    ((lb = get_user_by_discord_id s0 did ∨
        lb = get_user_by_discord_id s1 did) →
      (reconcile_act infoB did lb s1 now2).1 = Except.ok ub → ub = ua) := by
  have hspec := reconcile_create_spec infoA did s0 now1 hidA hfresh
  have heq := hspec.symm.trans hrunA
  have hfst := congrArg Prod.fst heq
  have hsnd := congrArg Prod.snd heq
  simp only at hfst hsnd
  have hua : s0.next_user_id = ua := Except.ok.inj hfst
  have hfind0 : s0.users.find? (fun r => r.discord_id == did) = none := hfresh
  have hlook : get_user_by_discord_id s1 did =
      some (newRow infoA did s0.next_user_id now1) := by
    rw [← hsnd]
    show (s0.users ++ [newRow infoA did s0.next_user_id now1]).find?
      (fun r => r.discord_id == did) = _
    rw [find?_append_left_none _ _ _ hfind0]
    simp [List.find?_cons, newRow]
  have hmemR : newRow infoA did s0.next_user_id now1 ∈ s1.users := by
    rw [← hsnd]
    show _ ∈ s0.users ++ [newRow infoA did s0.next_user_id now1]
    simp
  have hstale := reconcile_act_stale_create infoB did s1 now2
    (by rw [hlook]; simp)
  refine ⟨hstale, ?_⟩
  intro hlb hok
  rcases hlb with hlb | hlb
  · rw [hfresh] at hlb
    rw [hlb] at hok
    rw [hstale] at hok
    simp at hok
  · rw [hlook] at hlb
    rw [hlb] at hok
    have hfne : s1.users.find?
        (fun r => r.id == (newRow infoA did s0.next_user_id now1).id) ≠ none := by
      intro hn
      have := List.find?_eq_none.mp hn (newRow infoA did s0.next_user_id now1) hmemR
      simp at this
    cases hf : s1.users.find?
        (fun r => r.id == (newRow infoA did s0.next_user_id now1).id) with
    | none => exact absurd hf hfne
    | some old =>
      simp only [reconcile_act, update_user, hf] at hok
      have : (newRow infoA did s0.next_user_id now1).id = ub := Except.ok.inj hok
      rw [← this]
      simp [newRow, hua]

/-- Witness for C1 (amended): the concrete race of `c1_counterexample`,
with the second actor's lookup taken stale. -/
theorem c1_create_race_witness :
    (reconcile_act wInfo "999" none cDbAfterA 0 =
      (Except.error ("Failed to create user: " ++ uniqueViolationMsg),
       cDbAfterA)) ∧
    ((some cUserAv = get_user_by_discord_id emptyDb "999" ∨
        some cUserAv = get_user_by_discord_id cDbAfterA "999") →
      (reconcile_act wInfo "999" (some cUserAv) cDbAfterA 0).1 =
        Except.ok 0 → (0 : Nat) = 0) :=
  c1_create_race wInfo wInfo "999" emptyDb cDbAfterA 0 0 0 0 (some cUserAv)
    rfl rfl rfl rfl

/-! ### C8 — bio preservation and idempotent reconciliation -/

/-- After a successful reconcile under the primary-key invariants, the
returned identifier's row is found by the external id, it is in the table,
and ids are still pairwise distinct. -/
theorem reconcile_ok_post (info : UserInfo) (did : String) (s0 s1 : DbState)
    (now1 : Int) (u : Nat)
    (hwf : UsersWf s0) (hid : info.id = some did)
    (hrun : create_or_update_user_from_discord info s0 now1 =
      (Except.ok u, s1)) :
    ∃ R : DbUser, get_user_by_discord_id s1 did = some R ∧ R.id = u ∧
      R ∈ s1.users ∧ (s1.users.map (fun r => r.id)).Nodup := by
  cases hlook0 : get_user_by_discord_id s0 did with
  | none =>
    have hspec := reconcile_create_spec info did s0 now1 hid hlook0
    have heq := hspec.symm.trans hrun
    have hfst := congrArg Prod.fst heq
    have hsnd := congrArg Prod.snd heq
    simp only at hfst hsnd
    have hua : s0.next_user_id = u := Except.ok.inj hfst
    refine ⟨newRow info did s0.next_user_id now1, ?_, hua, ?_, ?_⟩
    · rw [← hsnd]
      show (s0.users ++ [newRow info did s0.next_user_id now1]).find?
        (fun r => r.discord_id == did) = _
      rw [find?_append_left_none _ _ _ hlook0]
      simp [List.find?_cons, newRow]
    · rw [← hsnd]
      show _ ∈ s0.users ++ [newRow info did s0.next_user_id now1]
      simp
    · rw [← hsnd]
      show ((s0.users ++ [newRow info did s0.next_user_id now1]).map
        (fun r => r.id)).Nodup
      rw [List.map_append, List.nodup_append]
      refine ⟨hwf.1, by simp, ?_⟩
      intro a ha hb
      simp only [List.map_cons, List.map_nil, List.mem_singleton] at hb
      rcases List.mem_map.mp ha with ⟨r, hr, hra⟩
      have := hwf.2 r hr
      rw [hra] at this
      rw [hb] at this
      simp [newRow] at this
  | some ex =>
    have hex : ex ∈ s0.users := List.mem_of_find?_eq_some hlook0
    have hspec := reconcile_update_spec info did ex s0 now1 hwf.1 hid hlook0
    have heq := hspec.symm.trans hrun
    have hfst := congrArg Prod.fst heq
    have hsnd := congrArg Prod.snd heq
    simp only at hfst hsnd
    have hua : ex.id = u := Except.ok.inj hfst
    have hids : ∀ x ∈ s0.users,
        (if x.id == ex.id then updRow info did ex now1 else x).id = x.id := by
      intro x _
      by_cases hxe : (x.id == ex.id) = true
      · have hxid : x.id = ex.id := by simpa using hxe
        simp [hxe, updRow, hxid]
      · simp [hxe]
    have hqpres : ∀ x ∈ s0.users,
        (fun r : DbUser => r.discord_id == did)
            (if x.id == ex.id then updRow info did ex now1 else x)
          = (fun r : DbUser => r.discord_id == did) x := by
      intro x hx
      by_cases hxe : (x.id == ex.id) = true
      · have hxid : x.id = ex.id := by simpa using hxe
        have hxex : x = ex :=
          eq_of_key_eq_of_nodup (fun r => r.id) s0.users hwf.1 x ex hx hex hxid
        rw [hxex]
        simp [updRow]
      · simp [hxe]
    refine ⟨updRow info did ex now1, ?_, by simp [updRow, hua], ?_, ?_⟩
    · rw [← hsnd]
      show (s0.users.map
        (fun x => if x.id == ex.id then updRow info did ex now1 else x)).find?
          (fun r => r.discord_id == did) = _
      have hlook0' : s0.users.find? (fun r => r.discord_id == did) = some ex :=
        hlook0
      rw [find?_map_of_pred_eq _ _ _ hqpres, hlook0']
      simp
    · rw [← hsnd]
      show _ ∈ s0.users.map
        (fun x => if x.id == ex.id then updRow info did ex now1 else x)
      have hmm : (fun x : DbUser =>
          if x.id == ex.id then updRow info did ex now1 else x) ex
          ∈ s0.users.map
            (fun x => if x.id == ex.id then updRow info did ex now1 else x) :=
        List.mem_map_of_mem _ hex
      simpa using hmm
    · rw [← hsnd]
      show ((s0.users.map
        (fun x => if x.id == ex.id then updRow info did ex now1 else x)).map
          (fun r => r.id)).Nodup
      rw [map_map_of_comp_eq (fun r => r.id) _ s0.users hids]
      exact hwf.1

/-- A reconcile that finds the row `R` by external id returns `R.id` and
preserves every row's id, discord id and bio. -/
theorem reconcile_second_preserves (info' : UserInfo) (did : String)
    (s1 : DbState) (now2 : Int) (R : DbUser)
    (hnd : (s1.users.map (fun r => r.id)).Nodup)
    (hid' : info'.id = some did)
    (hlook : get_user_by_discord_id s1 did = some R)
    (hmem : R ∈ s1.users) :
    (create_or_update_user_from_discord info' s1 now2).1 = Except.ok R.id ∧
    (create_or_update_user_from_discord info' s1 now2).2.users.map
        (fun r => (r.id, r.discord_id, r.bio))
      = s1.users.map (fun r => (r.id, r.discord_id, r.bio)) := by
  have hspec := reconcile_update_spec info' did R s1 now2 hnd hid' hlook
  constructor
  · rw [hspec]
  · rw [hspec]
    show (s1.users.map
      (fun x => if x.id == R.id then updRow info' did R now2 else x)).map
        (fun r => (r.id, r.discord_id, r.bio)) = _
    refine map_map_of_comp_eq _ _ s1.users ?_
    intro x hx
    by_cases hxe : (x.id == R.id) = true
    · have hxid : x.id = R.id := by simpa using hxe
      have hxR : x = R :=
        eq_of_key_eq_of_nodup (fun r => r.id) s1.users hnd x R hx hmem hxid
      rw [hxR]
      simp [updRow]
    · simp [hxe]

/-- C8: reconciliation never alters a user's bio.  Under the primary-key
invariants, if a first reconcile for external id `did` succeeds with
identifier `u`, then a second reconcile for the same id — with an
arbitrary fresh profile whose other fields may all have changed — returns
the same identifier `u` and preserves every row's id, discord id and bio
(in particular the bio is unchanged); and when the first call created the
user, the created row starts with bio unset. -/
theorem c8_bio_never_altered (info info' : UserInfo) (did : String)
    (s0 s1 : DbState) (now1 now2 : Int) (u : Nat)
    (hwf : UsersWf s0)
    (hid : info.id = some did) (hid' : info'.id = some did)
    (hrun1 : create_or_update_user_from_discord info s0 now1 =
      (Except.ok u, s1)) :
    (create_or_update_user_from_discord info' s1 now2).1 = Except.ok u ∧
    (create_or_update_user_from_discord info' s1 now2).2.users.map
        (fun r => (r.id, r.discord_id, r.bio))
      = s1.users.map (fun r => (r.id, r.discord_id, r.bio)) ∧
    (get_user_by_discord_id s0 did = none →
      s1.users = s0.users ++ [newRow info did s0.next_user_id now1] ∧
      (newRow info did s0.next_user_id now1).bio = none) := by
  rcases reconcile_ok_post info did s0 s1 now1 u hwf hid hrun1 with
    ⟨R, hlook, hRid, hmem, hnd⟩
  rcases reconcile_second_preserves info' did s1 now2 R hnd hid' hlook hmem with
    ⟨hok, hpres⟩
  refine ⟨by rw [hok, hRid], hpres, ?_⟩
  intro hfresh
  have hspec := reconcile_create_spec info did s0 now1 hid hfresh
  have heq := hspec.symm.trans hrun1
  have hsnd := congrArg Prod.snd heq
  simp only at hsnd
  exact ⟨by rw [← hsnd], rfl⟩

/-- Witness for C8: the concrete double login of external id "999"
against the empty database, the second time with a changed username. -/
theorem c8_bio_never_altered_witness :
    (create_or_update_user_from_discord cInfoNoAvatar cDbAfterA 5).1 =
      Except.ok 0 ∧
    (create_or_update_user_from_discord cInfoNoAvatar cDbAfterA 5).2.users.map
        (fun r => (r.id, r.discord_id, r.bio))
      = cDbAfterA.users.map (fun r => (r.id, r.discord_id, r.bio)) ∧
    (get_user_by_discord_id emptyDb "999" = none →
      cDbAfterA.users = emptyDb.users ++ [newRow wInfo "999" emptyDb.next_user_id 0] ∧
      (newRow wInfo "999" emptyDb.next_user_id 0).bio = none) :=
  c8_bio_never_altered wInfo cInfoNoAvatar "999" emptyDb cDbAfterA 0 5 0
    (by constructor
        · decide
        · intro r hr
          cases hr)
    rfl rfl rfl

end DiscordOrgHub
